import Mathlib

/-!
Verification of the model-build orchestration in `setup.py` of fbprophet.

The embedding translates the build script directly:

* `get_backends_from_env` — reads the `STAN_BACKEND` environment variable
  (a comma-delimited list, defaulting to the `PYSTAN` enum member's name)
  and splits it on commas, exactly as `os.environ.get(...).split(",")` does.
* `build_models` — for each selected backend name, resolves it through the
  registry and invokes the resolved builder against the target directory and
  the platform-specific model source directory.
* `BuildPyCommand.run` / `DevelopCommand.run` — the lifecycle hooks wrapping
  the default `build_py` / `develop` actions.
* `with_project_on_sys_path` — the sandboxed test runner's
  snapshot / mutate / restore discipline around `sys.path` and `sys.modules`.

External effects (directory creation, builder invocations, the default
lifecycle actions, the sandbox's `pkg_resources` calls) are recorded in an
event trace; exceptions are modelled with `Except`.  The registry
(`StanBackendEnum` in `fbprophet/models.py`) and the outcome of each
backend's toolchain invocation are not part of the build script itself and
are modelled from the spec where marked below.
-/

/-- Python's `str.split` with an explicit one-character separator, on the
character list of the string: `"" ↦ [""]`, separators at the ends produce
empty fields, no field is ever dropped. -/
def splitCharsOn (sep : Char) : List Char → List (List Char)
  | [] => [[]]
  | c :: cs =>
    if c = sep then [] :: splitCharsOn sep cs
    else
      match splitCharsOn sep cs with
      | [] => [[c]]
      | w :: ws => (c :: w) :: ws

/-- Python's `s.split(sep)` for a one-character separator `sep`. -/
def pySplit (s : String) (sep : Char) : List String :=
  (splitCharsOn sep s.data).map String.mk

/-- `os.path.join` for two components (POSIX separator). -/
def joinPath (a b : String) : String := a ++ "/" ++ b

/-- `PLATFORM` from `setup.py`: `'win'` when `platform.platform()` starts
with `'Win'`, else `'unix'`.  Parametrised by the platform description
string read at process start. -/
def PLATFORM (platformDescription : String) : String :=
  if platformDescription.startsWith "Win" then "win" else "unix"

/-- `MODEL_DIR = os.path.join('stan', PLATFORM)`: the model source location,
fixed per platform family. -/
def MODEL_DIR (platformDescription : String) : String :=
  joinPath "stan" (PLATFORM platformDescription)

/-- `MODEL_TARGET_DIR = os.path.join('fbprophet', 'stan_model')`. -/
def MODEL_TARGET_DIR : String := joinPath "fbprophet" "stan_model"

/-- Errors raised by registry resolution and by builders: a
`ConfigurationError` names the unresolvable backend value, a `BuildError`
names the backend whose toolchain failed together with the underlying
cause. -/
inductive BuildFailure where
  | configurationError (name : String)
  | buildError (name : String) (cause : String)
deriving DecidableEq, Repr

/-- Modelled from the spec: `StanBackendEnum` of `fbprophet/models.py`
(imported, not defined, by the build script): the closed set of backend
descriptors, one per supported compilation toolchain. -/
inductive StanBackendEnum where
  | PYSTAN
  | CMDSTANPY
deriving DecidableEq, Repr

/-- The Python enum member's `.name` attribute. -/
def StanBackendEnum.name : StanBackendEnum → String
  | .PYSTAN => "PYSTAN"
  | .CMDSTANPY => "CMDSTANPY"

/-- The registry's fixed, closed set of supported backend names. -/
def supportedBackends : List String := ["PYSTAN", "CMDSTANPY"]

/-- Modelled from the spec: `StanBackendEnum.get_backend_class` of
`fbprophet/models.py`: pure lookup resolving a supported name to its
backend, failing on any other name with a `ConfigurationError` that names
the unsupported value. -/
def get_backend_class (nm : String) : Except BuildFailure StanBackendEnum :=
  if nm = "PYSTAN" then Except.ok StanBackendEnum.PYSTAN
  else if nm = "CMDSTANPY" then Except.ok StanBackendEnum.CMDSTANPY
  else Except.error (BuildFailure.configurationError nm)

/-- The state of the configuration environment read by the build script:
the `STAN_BACKEND` variable (absent or a string) and the
`platform.platform()` description. -/
structure BuildEnv where
  stanBackendVar : Option String
  platformDescription : String

/-- `get_backends_from_env` of `setup.py`:
`os.environ.get("STAN_BACKEND", StanBackendEnum.PYSTAN.name).split(",")`. -/
def get_backends_from_env (env : BuildEnv) : List String :=
  pySplit (env.stanBackendVar.getD StanBackendEnum.PYSTAN.name) ','

/-- Observable build-time effects, in the order they happen. -/
inductive BuildEvent where
  | mkpath (dir : String)
  | resolve (backend : String)
  | buildModel (backend : String) (targetDir : String) (modelDir : String)
  | defaultAction (command : String)
deriving DecidableEq, Repr

/-- The loop body of `build_models`: for each backend name in order,
resolve it via the registry, then invoke the resolved builder's
`build_model(target_dir, MODEL_DIR)`.  The outcome of each builder's
toolchain invocation is the black-box parameter `behavior` (modelled from
the spec: a builder either succeeds or fails with a `BuildFailure`).  An
exception aborts the loop and propagates. -/
def build_models_go (behavior : String → Except BuildFailure Unit)
    (target_dir model_dir : String) :
    List String → Except BuildFailure Unit × List BuildEvent
  | [] => (Except.ok (), [])
  | b :: rest =>
    match get_backend_class b with
    | Except.error e => (Except.error e, [BuildEvent.resolve b])
    | Except.ok _ =>
      match behavior b with
      | Except.error e =>
        (Except.error e,
          [BuildEvent.resolve b, BuildEvent.buildModel b target_dir model_dir])
      | Except.ok _ =>
        let r := build_models_go behavior target_dir model_dir rest
        (r.1, BuildEvent.resolve b ::
          BuildEvent.buildModel b target_dir model_dir :: r.2)

/-- `build_models(target_dir)` of `setup.py`: iterate
`get_backends_from_env()` in order, resolving and building each backend. -/
def build_models (env : BuildEnv) (behavior : String → Except BuildFailure Unit)
    (target_dir : String) : Except BuildFailure Unit × List BuildEvent :=
  build_models_go behavior target_dir (MODEL_DIR env.platformDescription)
    (get_backends_from_env env)

/-- The `build_py` lifecycle hook's receiver: its dry-run flag and staging
directory. -/
structure BuildPyCommand where
  dry_run : Bool
  build_lib : String

/-- `BuildPyCommand.run` of `setup.py`: unless dry-run, create the target
directory and build the models there; then (only if that did not raise)
run the wrapped default `build_py` action. -/
def BuildPyCommand.run (env : BuildEnv)
    (behavior : String → Except BuildFailure Unit) (self : BuildPyCommand) :
    Except BuildFailure Unit × List BuildEvent :=
  if self.dry_run then
    (Except.ok (), [BuildEvent.defaultAction "build_py"])
  else
    match build_models env behavior (joinPath self.build_lib MODEL_TARGET_DIR) with
    | (Except.error e, evs) =>
      (Except.error e,
        BuildEvent.mkpath (joinPath self.build_lib MODEL_TARGET_DIR) :: evs)
    | (Except.ok _, evs) =>
      (Except.ok (),
        BuildEvent.mkpath (joinPath self.build_lib MODEL_TARGET_DIR) ::
          evs ++ [BuildEvent.defaultAction "build_py"])

/-- The `develop` lifecycle hook's receiver: its dry-run flag and the
source-tree setup path. -/
structure DevelopCommand where
  dry_run : Bool
  setup_path : String

/-- `DevelopCommand.run` of `setup.py`: same pattern as the build hook, with
the target directory inside the working source tree. -/
def DevelopCommand.run (env : BuildEnv)
    (behavior : String → Except BuildFailure Unit) (self : DevelopCommand) :
    Except BuildFailure Unit × List BuildEvent :=
  if self.dry_run then
    (Except.ok (), [BuildEvent.defaultAction "develop"])
  else
    match build_models env behavior (joinPath self.setup_path MODEL_TARGET_DIR) with
    | (Except.error e, evs) =>
      (Except.error e,
        BuildEvent.mkpath (joinPath self.setup_path MODEL_TARGET_DIR) :: evs)
    | (Except.ok _, evs) =>
      (Except.ok (),
        BuildEvent.mkpath (joinPath self.setup_path MODEL_TARGET_DIR) ::
          evs ++ [BuildEvent.defaultAction "develop"])

/-- The process-wide module-resolution state mutated by the sandboxed test
runner: `sys.path` and the `sys.modules` cache (as a name-to-module
association list). -/
structure ResolutionState where
  path : List String
  modules : List (String × String)
deriving DecidableEq, Repr

/-- The finalized `egg_info` command's fields used by the test runner. -/
structure EggInfo where
  egg_base : String
  egg_name : String
  egg_version : String

/-- Observable effects of the sandboxed run, in order. -/
inductive SandboxEvent where
  | insertPath (p : String)
  | initWorkingSet
  | addActivationListener
  | require (spec : String)
  | runFunc
deriving DecidableEq, Repr

/-- The requirement string `'%s==%s' % (ei_cmd.egg_name, ei_cmd.egg_version)`. -/
def requireSpec (ei : EggInfo) : String := ei.egg_name ++ "==" ++ ei.egg_version

/-- The resolution state seen by the test function: the snapshot state with
the normalized staging location inserted at position 0 of `sys.path`
(line `sys.path.insert(0, normalize_path(ei_cmd.egg_base))`). -/
def stagedState (normalize : String → String)
    (buildSteps : ResolutionState → ResolutionState) (ei : EggInfo)
    (st0 : ResolutionState) : ResolutionState :=
  { buildSteps st0 with
    path := normalize ei.egg_base :: (buildSteps st0).path }

/-- `TestCommand.with_project_on_sys_path` of `setup.py`.  `buildSteps` is
the combined effect on process state of the `build_py` / `egg_info` /
`build_ext` commands run before the snapshot; `normalize` is
`pkg_resources.normalize_path`; `requireOk` says whether
`require('%s==%s' ...)` succeeds for the freshly built package (modelled
from the spec: an exact name-and-version resolution that fails on version
skew); `func` is the test body, which may mutate the resolution state and
may raise.  The `try` body inserts the staging path, re-initialises the
working set, registers the activation listener, requires the exact
name==version, then calls `func`; the `finally` block restores `sys.path`
and `sys.modules` from the snapshot on every exit path. -/
def with_project_on_sys_path (normalize : String → String)
    (buildSteps : ResolutionState → ResolutionState) (requireOk : Bool)
    (func : ResolutionState → Except String Unit × ResolutionState)
    (ei : EggInfo) (st0 : ResolutionState) :
    Except String Unit × ResolutionState × List SandboxEvent :=
  let st := buildSteps st0
  let old_path := st.path
  let old_modules := st.modules
  let tryRes : Except String Unit × ResolutionState × List SandboxEvent :=
    if requireOk then
      let fr := func (stagedState normalize buildSteps ei st0)
      (fr.1, fr.2,
        [SandboxEvent.insertPath (normalize ei.egg_base),
         SandboxEvent.initWorkingSet, SandboxEvent.addActivationListener,
         SandboxEvent.require (requireSpec ei), SandboxEvent.runFunc])
    else
      (Except.error ("DistributionNotFound: " ++ requireSpec ei),
        stagedState normalize buildSteps ei st0,
        [SandboxEvent.insertPath (normalize ei.egg_base),
         SandboxEvent.initWorkingSet, SandboxEvent.addActivationListener,
         SandboxEvent.require (requireSpec ei)])
  (tryRes.1, { path := old_path, modules := old_modules }, tryRes.2.2)

/-! ## Helper lemmas -/

theorem splitCharsOn_ne_nil (sep : Char) (l : List Char) :
    splitCharsOn sep l ≠ [] := by
  cases l with
  | nil => simp [splitCharsOn]
  | cons c cs =>
    rw [splitCharsOn]
    split
    · simp
    · cases h : splitCharsOn sep cs <;> simp

theorem pySplit_ne_nil (s : String) (sep : Char) : pySplit s sep ≠ [] := by
  simpa [pySplit] using splitCharsOn_ne_nil sep s.data

theorem get_backend_class_of_supported {b : String}
    (hb : b ∈ supportedBackends) : ∃ k, get_backend_class b = Except.ok k := by
  simp only [supportedBackends, List.mem_cons, List.not_mem_nil, or_false] at hb
  rcases hb with h | h <;> subst h
  · exact ⟨StanBackendEnum.PYSTAN, rfl⟩
  · exact ⟨StanBackendEnum.CMDSTANPY, rfl⟩

theorem get_backend_class_not_supported {b : String}
    (hb : b ∉ supportedBackends) :
    get_backend_class b = Except.error (BuildFailure.configurationError b) := by
  simp only [supportedBackends, List.mem_cons, List.not_mem_nil, or_false,
    not_or] at hb
  simp [get_backend_class, hb.1, hb.2]

theorem build_models_go_all_ok (behavior : String → Except BuildFailure Unit)
    (t m : String) (l : List String)
    (h : ∀ b ∈ l, b ∈ supportedBackends ∧ behavior b = Except.ok ()) :
    build_models_go behavior t m l =
      (Except.ok (),
        l.flatMap (fun b => [BuildEvent.resolve b, BuildEvent.buildModel b t m])) := by
  induction l with
  | nil => rfl
  | cons b rest ih =>
    obtain ⟨hb, hok⟩ := h b (List.mem_cons_self b rest)
    obtain ⟨k, hk⟩ := get_backend_class_of_supported hb
    simp [build_models_go, hk, hok,
      ih (fun x hx => h x (List.mem_cons_of_mem b hx))]

theorem build_models_go_fail_at (behavior : String → Except BuildFailure Unit)
    (t m : String) (pre : List String) (b : String) (rest : List String)
    (e : BuildFailure)
    (hpre : ∀ x ∈ pre, x ∈ supportedBackends ∧ behavior x = Except.ok ())
    (hb : b ∈ supportedBackends) (hfail : behavior b = Except.error e) :
    build_models_go behavior t m (pre ++ b :: rest) =
      (Except.error e,
        pre.flatMap (fun x => [BuildEvent.resolve x, BuildEvent.buildModel x t m]) ++
          [BuildEvent.resolve b, BuildEvent.buildModel b t m]) := by
  induction pre with
  | nil =>
    obtain ⟨k, hk⟩ := get_backend_class_of_supported hb
    simp [build_models_go, hk, hfail]
  | cons x xs ih =>
    obtain ⟨hx, hxok⟩ := hpre x (List.mem_cons_self x xs)
    obtain ⟨k, hk⟩ := get_backend_class_of_supported hx
    simp [build_models_go, hk, hxok,
      ih (fun y hy => hpre y (List.mem_cons_of_mem x hy))]

theorem get_backends_from_env_ne_nil (env : BuildEnv) :
    get_backends_from_env env ≠ [] :=
  pySplit_ne_nil _ ','

theorem build_models_go_cons_resolve
    (behavior : String → Except BuildFailure Unit) (t m b0 : String)
    (rest : List String) :
    BuildEvent.resolve b0 ∈ (build_models_go behavior t m (b0 :: rest)).2 ∧
    (b0 ∈ supportedBackends →
      BuildEvent.buildModel b0 t m ∈
        (build_models_go behavior t m (b0 :: rest)).2) := by
  constructor
  · cases hgc : get_backend_class b0 with
    | error e => simp [build_models_go, hgc]
    | ok k =>
      cases hbe : behavior b0 <;> simp [build_models_go, hgc, hbe]
  · intro hb0
    obtain ⟨k, hk⟩ := get_backend_class_of_supported hb0
    cases hbe : behavior b0 <;> simp [build_models_go, hk, hbe]

theorem mem_run_build_py (env : BuildEnv)
    (behavior : String → Except BuildFailure Unit) (lib : String)
    (x : BuildEvent)
    (hx : x ∈ (build_models env behavior (joinPath lib MODEL_TARGET_DIR)).2) :
    x ∈ (BuildPyCommand.run env behavior ⟨false, lib⟩).2 := by
  rcases hbm : build_models env behavior (joinPath lib MODEL_TARGET_DIR) with ⟨r, evs⟩
  rw [hbm] at hx
  cases r with
  | error e =>
    simp only [BuildPyCommand.run, hbm]
    exact List.mem_cons_of_mem _ hx
  | ok u =>
    simp only [BuildPyCommand.run, hbm]
    exact List.mem_cons_of_mem _ (List.mem_append_left _ hx)

theorem mem_run_develop (env : BuildEnv)
    (behavior : String → Except BuildFailure Unit) (sp : String)
    (x : BuildEvent)
    (hx : x ∈ (build_models env behavior (joinPath sp MODEL_TARGET_DIR)).2) :
    x ∈ (DevelopCommand.run env behavior ⟨false, sp⟩).2 := by
  rcases hbm : build_models env behavior (joinPath sp MODEL_TARGET_DIR) with ⟨r, evs⟩
  rw [hbm] at hx
  cases r with
  | error e =>
    simp only [DevelopCommand.run, hbm]
    exact List.mem_cons_of_mem _ hx
  | ok u =>
    simp only [DevelopCommand.run, hbm]
    exact List.mem_cons_of_mem _ (List.mem_append_left _ hx)

/-! ## Claims -/

/-- C3: with the backend-selection variable unset, backend selection returns
exactly the one-element sequence holding the canonical default backend
name, `StanBackendEnum.PYSTAN.name = "PYSTAN"`. -/
theorem C3_default_selection (p : String) :
    get_backends_from_env ⟨none, p⟩ = [StanBackendEnum.PYSTAN.name] ∧
    get_backends_from_env ⟨none, p⟩ = ["PYSTAN"] :=
  ⟨rfl, rfl⟩

/-- C4: with the backend-selection variable set to `"a,b,c"`, backend
selection returns `["a", "b", "c"]` in that order; repeated names are kept,
not deduplicated (`"a,b,a"` gives `["a", "b", "a"]`). -/
theorem C4_order_preserving_selection (p : String) :
    get_backends_from_env ⟨some "a,b,c", p⟩ = ["a", "b", "c"] ∧
    get_backends_from_env ⟨some "a,b,a", p⟩ = ["a", "b", "a"] :=
  ⟨rfl, rfl⟩

/-- C5: with the variable present but empty, backend selection returns the
one-element sequence holding the empty name, which then fails registry
resolution with a `ConfigurationError` naming the empty value, aborting the
orchestrator before any builder is invoked. -/
theorem C5_blank_selection_fails_resolution (p t : String)
    (behavior : String → Except BuildFailure Unit) :
    get_backends_from_env ⟨some "", p⟩ = [""] ∧
    get_backend_class "" = Except.error (BuildFailure.configurationError "") ∧
    build_models ⟨some "", p⟩ behavior t =
      (Except.error (BuildFailure.configurationError ""),
        [BuildEvent.resolve ""]) :=
  ⟨rfl, rfl, rfl⟩

/-- C7: with the dry-run flag set, neither hook creates the target
directory nor invokes any builder; the wrapped default lifecycle action is
the only effect. -/
theorem C7_dry_run_has_no_build_effects (env : BuildEnv)
    (behavior : String → Except BuildFailure Unit) (lib sp : String) :
    BuildPyCommand.run env behavior ⟨true, lib⟩ =
      (Except.ok (), [BuildEvent.defaultAction "build_py"]) ∧
    DevelopCommand.run env behavior ⟨true, sp⟩ =
      (Except.ok (), [BuildEvent.defaultAction "develop"]) :=
  ⟨rfl, rfl⟩

/-- C2: on every exit path of the sandboxed test runner — the test function
returning normally or raising, the require step failing — the
module-resolution search path and the loaded-module cache are restored
exactly to their snapshot values taken before entry into the sandboxed
run. -/
theorem C2_sandbox_restores_resolution_state (normalize : String → String)
    (buildSteps : ResolutionState → ResolutionState) (requireOk : Bool)
    (func : ResolutionState → Except String Unit × ResolutionState)
    (ei : EggInfo) (st0 : ResolutionState) :
    (with_project_on_sys_path normalize buildSteps requireOk func ei st0).2.1.path =
      (buildSteps st0).path ∧
    (with_project_on_sys_path normalize buildSteps requireOk func ei st0).2.1.modules =
      (buildSteps st0).modules := by
  cases requireOk <;> exact ⟨rfl, rfl⟩

/-- C9: before the test function runs, the sandboxed runner inserts the
staging location at the front of the search path, re-initialises the
working set, registers the activation listener, and requires the freshly
built package's exact `name==version`; when that requirement fails the
whole run fails with the resolution error before the test function is ever
executed. -/
theorem C9_sandbox_setup_and_require (normalize : String → String)
    (buildSteps : ResolutionState → ResolutionState)
    (func : ResolutionState → Except String Unit × ResolutionState)
    (ei : EggInfo) (st0 : ResolutionState) :
    (stagedState normalize buildSteps ei st0).path =
      normalize ei.egg_base :: (buildSteps st0).path ∧
    with_project_on_sys_path normalize buildSteps true func ei st0 =
      ((func (stagedState normalize buildSteps ei st0)).1, buildSteps st0,
        [SandboxEvent.insertPath (normalize ei.egg_base),
         SandboxEvent.initWorkingSet, SandboxEvent.addActivationListener,
         SandboxEvent.require (requireSpec ei), SandboxEvent.runFunc]) ∧
    with_project_on_sys_path normalize buildSteps false func ei st0 =
      (Except.error ("DistributionNotFound: " ++ requireSpec ei), buildSteps st0,
        [SandboxEvent.insertPath (normalize ei.egg_base),
         SandboxEvent.initWorkingSet, SandboxEvent.addActivationListener,
         SandboxEvent.require (requireSpec ei)]) ∧
    SandboxEvent.runFunc ∉
      (with_project_on_sys_path normalize buildSteps false func ei st0).2.2 := by
  refine ⟨rfl, rfl, rfl, ?_⟩
  simp [with_project_on_sys_path]

/-- C8: the orchestrator walks the selection list strictly in order; when
every selected name resolves and its builder succeeds, the trace is exactly
one resolution followed by one builder invocation (with the target
directory and the computed model source location) per occurrence of each
name, in list order. -/
theorem C8_sequential_build_in_list_order (env : BuildEnv)
    (behavior : String → Except BuildFailure Unit) (t : String)
    (h : ∀ b ∈ get_backends_from_env env,
      b ∈ supportedBackends ∧ behavior b = Except.ok ()) :
    build_models env behavior t =
      (Except.ok (), (get_backends_from_env env).flatMap
        (fun b => [BuildEvent.resolve b,
          BuildEvent.buildModel b t (MODEL_DIR env.platformDescription)])) :=
  build_models_go_all_ok behavior t (MODEL_DIR env.platformDescription)
    (get_backends_from_env env) h

/-- Witness for C8 at the configuration `"PYSTAN,PYSTAN"`: the duplicated
name is resolved and built twice, in order. -/
theorem C8_sequential_build_in_list_order_witness :
    build_models ⟨some "PYSTAN,PYSTAN", "Linux-5.4"⟩ (fun _ => Except.ok ())
        "bt" =
      (Except.ok (),
        [BuildEvent.resolve "PYSTAN",
         BuildEvent.buildModel "PYSTAN" "bt" (MODEL_DIR "Linux-5.4"),
         BuildEvent.resolve "PYSTAN",
         BuildEvent.buildModel "PYSTAN" "bt" (MODEL_DIR "Linux-5.4")]) := by
  refine (C8_sequential_build_in_list_order ⟨some "PYSTAN,PYSTAN", "Linux-5.4"⟩
    (fun _ => Except.ok ()) "bt" ?_).trans rfl
  intro b hb
  have hsel : get_backends_from_env ⟨some "PYSTAN,PYSTAN", "Linux-5.4"⟩ =
      ["PYSTAN", "PYSTAN"] := rfl
  rw [hsel] at hb
  simp only [List.mem_cons, List.not_mem_nil, or_false, or_self] at hb
  subst hb
  exact ⟨by simp [supportedBackends], rfl⟩

/-- C1: when a builder fails after all earlier names resolved and built
successfully, the orchestrator stops at that first error — the trace holds
no event for the remaining names — the error becomes the hook's result, and
the wrapped default lifecycle action is never run. -/
theorem C1_builder_failure_fails_fast (v : Option String) (p lib : String)
    (behavior : String → Except BuildFailure Unit)
    (pre : List String) (b : String) (rest : List String) (e : BuildFailure)
    (hsel : get_backends_from_env ⟨v, p⟩ = pre ++ b :: rest)
    (hpre : ∀ x ∈ pre, x ∈ supportedBackends ∧ behavior x = Except.ok ())
    (hb : b ∈ supportedBackends) (hfail : behavior b = Except.error e) :
    BuildPyCommand.run ⟨v, p⟩ behavior ⟨false, lib⟩ =
      (Except.error e,
        BuildEvent.mkpath (joinPath lib MODEL_TARGET_DIR) ::
          (pre.flatMap (fun x => [BuildEvent.resolve x,
              BuildEvent.buildModel x (joinPath lib MODEL_TARGET_DIR)
                (MODEL_DIR p)]) ++
            [BuildEvent.resolve b,
             BuildEvent.buildModel b (joinPath lib MODEL_TARGET_DIR)
               (MODEL_DIR p)])) ∧
    BuildEvent.defaultAction "build_py" ∉
      (BuildPyCommand.run ⟨v, p⟩ behavior ⟨false, lib⟩).2 := by
  have hgo := build_models_go_fail_at behavior (joinPath lib MODEL_TARGET_DIR)
    (MODEL_DIR p) pre b rest e hpre hb hfail
  have hbm : build_models ⟨v, p⟩ behavior (joinPath lib MODEL_TARGET_DIR) =
      (Except.error e,
        pre.flatMap (fun x => [BuildEvent.resolve x,
            BuildEvent.buildModel x (joinPath lib MODEL_TARGET_DIR)
              (MODEL_DIR p)]) ++
          [BuildEvent.resolve b,
           BuildEvent.buildModel b (joinPath lib MODEL_TARGET_DIR)
             (MODEL_DIR p)]) := by
    show build_models_go behavior (joinPath lib MODEL_TARGET_DIR) (MODEL_DIR p)
        (get_backends_from_env ⟨v, p⟩) = _
    rw [hsel]
    exact hgo
  have hrun : BuildPyCommand.run ⟨v, p⟩ behavior ⟨false, lib⟩ =
      (Except.error e,
        BuildEvent.mkpath (joinPath lib MODEL_TARGET_DIR) ::
          (pre.flatMap (fun x => [BuildEvent.resolve x,
              BuildEvent.buildModel x (joinPath lib MODEL_TARGET_DIR)
                (MODEL_DIR p)]) ++
            [BuildEvent.resolve b,
             BuildEvent.buildModel b (joinPath lib MODEL_TARGET_DIR)
               (MODEL_DIR p)])) := by
    simp [BuildPyCommand.run, hbm]
  refine ⟨hrun, ?_⟩
  rw [hrun]
  simp

/-- Witness for C1: with selection `"CMDSTANPY,PYSTAN"` and the `CMDSTANPY`
builder failing, the run stops after that first failure — `PYSTAN` is never
resolved or built — and the default `build_py` action never runs. -/
theorem C1_builder_failure_fails_fast_witness :
    BuildPyCommand.run ⟨some "CMDSTANPY,PYSTAN", "Linux-5.4"⟩
        (fun s => if s = "CMDSTANPY"
          then Except.error (BuildFailure.buildError "CMDSTANPY" "toolchain failed")
          else Except.ok ()) ⟨false, "build/lib"⟩ =
      (Except.error (BuildFailure.buildError "CMDSTANPY" "toolchain failed"),
        [BuildEvent.mkpath (joinPath "build/lib" MODEL_TARGET_DIR),
         BuildEvent.resolve "CMDSTANPY",
         BuildEvent.buildModel "CMDSTANPY" (joinPath "build/lib" MODEL_TARGET_DIR)
           (MODEL_DIR "Linux-5.4")]) ∧
    BuildEvent.defaultAction "build_py" ∉
      (BuildPyCommand.run ⟨some "CMDSTANPY,PYSTAN", "Linux-5.4"⟩
        (fun s => if s = "CMDSTANPY"
          then Except.error (BuildFailure.buildError "CMDSTANPY" "toolchain failed")
          else Except.ok ()) ⟨false, "build/lib"⟩).2 := by
  have h := C1_builder_failure_fails_fast (some "CMDSTANPY,PYSTAN") "Linux-5.4"
    "build/lib"
    (fun s => if s = "CMDSTANPY"
      then Except.error (BuildFailure.buildError "CMDSTANPY" "toolchain failed")
      else Except.ok ())
    [] "CMDSTANPY" ["PYSTAN"]
    (BuildFailure.buildError "CMDSTANPY" "toolchain failed")
    rfl (by intro x hx; exact absurd hx (List.not_mem_nil x))
    (by simp [supportedBackends]) rfl
  exact ⟨h.1.trans rfl, h.2⟩

/-- C6: a selection consisting of a single name outside the registry's
closed set makes the standard build hook fail with a `ConfigurationError`
naming that value, and the wrapped default packaging action is never
reached. -/
theorem C6_unknown_backend_aborts_build (s p lib : String)
    (behavior : String → Except BuildFailure Unit)
    (h1 : s ∉ supportedBackends) (h2 : pySplit s ',' = [s]) :
    BuildPyCommand.run ⟨some s, p⟩ behavior ⟨false, lib⟩ =
      (Except.error (BuildFailure.configurationError s),
        [BuildEvent.mkpath (joinPath lib MODEL_TARGET_DIR),
         BuildEvent.resolve s]) ∧
    BuildEvent.defaultAction "build_py" ∉
      (BuildPyCommand.run ⟨some s, p⟩ behavior ⟨false, lib⟩).2 := by
  have hres := get_backend_class_not_supported h1
  have hbm : build_models ⟨some s, p⟩ behavior (joinPath lib MODEL_TARGET_DIR) =
      (Except.error (BuildFailure.configurationError s),
        [BuildEvent.resolve s]) := by
    show build_models_go behavior (joinPath lib MODEL_TARGET_DIR) (MODEL_DIR p)
        (get_backends_from_env ⟨some s, p⟩) = _
    have hsel : get_backends_from_env ⟨some s, p⟩ = [s] := h2
    rw [hsel]
    simp [build_models_go, hres]
  have hrun : BuildPyCommand.run ⟨some s, p⟩ behavior ⟨false, lib⟩ =
      (Except.error (BuildFailure.configurationError s),
        [BuildEvent.mkpath (joinPath lib MODEL_TARGET_DIR),
         BuildEvent.resolve s]) := by
    simp [BuildPyCommand.run, hbm]
  refine ⟨hrun, ?_⟩
  rw [hrun]
  simp

/-- Witness for C6 at the unregistered selection `"backendX"`. -/
theorem C6_unknown_backend_aborts_build_witness :
    BuildPyCommand.run ⟨some "backendX", "Linux-5.4"⟩ (fun _ => Except.ok ())
        ⟨false, "build/lib"⟩ =
      (Except.error (BuildFailure.configurationError "backendX"),
        [BuildEvent.mkpath (joinPath "build/lib" MODEL_TARGET_DIR),
         BuildEvent.resolve "backendX"]) ∧
    BuildEvent.defaultAction "build_py" ∉
      (BuildPyCommand.run ⟨some "backendX", "Linux-5.4"⟩ (fun _ => Except.ok ())
        ⟨false, "build/lib"⟩).2 :=
  C6_unknown_backend_aborts_build "backendX" "Linux-5.4" "build/lib"
    (fun _ => Except.ok ()) (by decide) rfl

/-- C10: whatever the configuration variable holds (unset, empty, or any
string), backend selection is non-empty; hence every non-dry-run hook run
attempts at least the first name's registry resolution, and when that name
resolves its builder is invoked. -/
theorem C10_selection_never_empty (v : Option String) (p lib sp : String)
    (behavior : String → Except BuildFailure Unit) :
    get_backends_from_env ⟨v, p⟩ ≠ [] ∧
    ∃ b0 rest, get_backends_from_env ⟨v, p⟩ = b0 :: rest ∧
      BuildEvent.resolve b0 ∈
        (BuildPyCommand.run ⟨v, p⟩ behavior ⟨false, lib⟩).2 ∧
      BuildEvent.resolve b0 ∈
        (DevelopCommand.run ⟨v, p⟩ behavior ⟨false, sp⟩).2 ∧
      (b0 ∈ supportedBackends →
        BuildEvent.buildModel b0 (joinPath lib MODEL_TARGET_DIR) (MODEL_DIR p) ∈
          (BuildPyCommand.run ⟨v, p⟩ behavior ⟨false, lib⟩).2) := by
  refine ⟨get_backends_from_env_ne_nil _, ?_⟩
  cases hsel : get_backends_from_env ⟨v, p⟩ with
  | nil => exact absurd hsel (get_backends_from_env_ne_nil _)
  | cons b0 rest =>
    have hbmb : build_models ⟨v, p⟩ behavior (joinPath lib MODEL_TARGET_DIR) =
        build_models_go behavior (joinPath lib MODEL_TARGET_DIR) (MODEL_DIR p)
          (b0 :: rest) := by
      show build_models_go behavior (joinPath lib MODEL_TARGET_DIR) (MODEL_DIR p)
          (get_backends_from_env ⟨v, p⟩) = _
      rw [hsel]
    have hbmd : build_models ⟨v, p⟩ behavior (joinPath sp MODEL_TARGET_DIR) =
        build_models_go behavior (joinPath sp MODEL_TARGET_DIR) (MODEL_DIR p)
          (b0 :: rest) := by
      show build_models_go behavior (joinPath sp MODEL_TARGET_DIR) (MODEL_DIR p)
          (get_backends_from_env ⟨v, p⟩) = _
      rw [hsel]
    refine ⟨b0, rest, rfl, ?_, ?_, ?_⟩
    · refine mem_run_build_py _ _ _ _ ?_
      rw [hbmb]
      exact (build_models_go_cons_resolve behavior _ _ b0 rest).1
    · refine mem_run_develop _ _ _ _ ?_
      rw [hbmd]
      exact (build_models_go_cons_resolve behavior _ _ b0 rest).1
    · intro hb0
      refine mem_run_build_py _ _ _ _ ?_
      rw [hbmb]
      exact (build_models_go_cons_resolve behavior _ _ b0 rest).2 hb0

/-- Witness for C10 with the variable unset: the default selection is
non-empty, its head `"PYSTAN"` is resolved by both hooks, and its builder
is invoked. -/
theorem C10_selection_never_empty_witness :
    get_backends_from_env ⟨none, "Linux-5.4"⟩ ≠ [] ∧
    ∃ b0 rest, get_backends_from_env ⟨none, "Linux-5.4"⟩ = b0 :: rest ∧
      BuildEvent.resolve b0 ∈
        (BuildPyCommand.run ⟨none, "Linux-5.4"⟩ (fun _ => Except.ok ())
          ⟨false, "build/lib"⟩).2 ∧
      BuildEvent.resolve b0 ∈
        (DevelopCommand.run ⟨none, "Linux-5.4"⟩ (fun _ => Except.ok ())
          ⟨false, "."⟩).2 ∧
      (b0 ∈ supportedBackends →
        BuildEvent.buildModel b0 (joinPath "build/lib" MODEL_TARGET_DIR)
            (MODEL_DIR "Linux-5.4") ∈
          (BuildPyCommand.run ⟨none, "Linux-5.4"⟩ (fun _ => Except.ok ())
            ⟨false, "build/lib"⟩).2) :=
  C10_selection_never_empty none "Linux-5.4" "build/lib" "."
    (fun _ => Except.ok ())
